import Mathlib

/-!
Shallow embedding of the L0-to-L1 spectral processing pipeline
(src/corrections.py, src/scodes.py, src/models.py, src/processor.py).

Numpy float arrays are modelled as `List ℝ` with exact real arithmetic.
Elementwise numpy operations become `List.map` / `List.zipWith`;
`np.convolve(·, ·, mode="same")` is modelled by `convolveSame` below,
including numpy's output length `max n m`.  Numpy raises on degenerate
inputs (`np.max` of an empty array, negative dimensions for `np.ones`);
those spots are noted at the corresponding definitions.
-/

namespace L0L1

/-- Zero-padded indexed access into a list, used to express convolution:
`getPad l j` is `l[j]` when `0 ≤ j < l.length` and `0` outside. -/
def getPad (l : List ℝ) (j : ℤ) : ℝ :=
  if 0 ≤ j then l.getD j.toNat 0 else 0

/-- `np.convolve(a, v, mode="same")`: the middle `max n m` entries of the
full convolution, starting at offset `(min n m - 1) / 2`;
entry `i` is `Σ_j v[j] · a[i + off - j]` with zero padding. -/
noncomputable def convolveSame (a v : List ℝ) : List ℝ :=
  (List.range (max a.length v.length)).map fun i =>
    ((List.range v.length).map fun j =>
      getPad v j * getPad a ((i : ℤ) + ((min a.length v.length - 1) / 2 : ℕ) - j)).sum

/-- `np.clip(arr, 0, None)` -/
def npClip0 (l : List ℝ) : List ℝ := l.map fun x => max x 0

/-- `np.where(arr == 0.0, 1.0, arr)` -/
noncomputable def npWhereZeroOne (l : List ℝ) : List ℝ :=
  l.map fun p => if p = 0 then 1 else p

/-- `np.max`.  Numpy raises `ValueError` on an empty array; the `[]` case
below is a junk value and theorems about `np.max` carry a nonemptiness
hypothesis. -/
noncomputable def npMax : List ℝ → ℝ
  | [] => 0
  | h :: t => t.foldl max h

/-- `np.mean` (`np.mean` of an empty array is NaN in numpy; unreachable
under the nonemptiness preconditions used here, and `0/0 = 0` in Lean). -/
noncomputable def npMean (l : List ℝ) : ℝ := l.sum / l.length

/-- `np.linspace(a, b, n)` -/
noncomputable def linspace (a b : ℝ) (n : ℕ) : List ℝ :=
  if n ≤ 1 then List.replicate n a
  else (List.range n).map fun i : ℕ => a + (i : ℝ) * ((b - a) / ((n - 1 : ℕ) : ℝ))

/-! ## src/corrections.py -/

/-- The per-pixel calibration state of `CalibrationData` after
`__post_init__` (the arrays, plus `ref_temp_c`). -/
structure CalR where
  prnu : List ℝ
  temp_coeff : List ℝ
  sensitivity : List ℝ
  wavelength_nm : List ℝ
  ref_temp_c : ℝ

/-- The placeholder arrays `__post_init__` builds for a (nonnegative)
pixel count: `np.ones`, `np.zeros`, `np.ones`, `np.linspace(280, 530, n)`. -/
noncomputable def calArrays (n : ℕ) : CalR :=
  { prnu := List.replicate n 1
    temp_coeff := List.replicate n 0
    sensitivity := List.replicate n 1
    wavelength_nm := linspace 280 530 n
    ref_temp_c := 20 }

/-- `CalibrationData(n_pixels)` construction.  There is no validation in
the source: `np.ones(n)` (hence construction) succeeds for every `n ≥ 0`,
including `n = 0` (empty arrays), and raises numpy's `ValueError`
("negative dimensions are not allowed") only for `n < 0`.  `none` models
that raised `ValueError`. -/
noncomputable def mkCalibrationData (n : ℤ) : Option CalR :=
  if n < 0 then none else some (calArrays n.toNat)

/-- `CalibrationData.nonlinearity_inverse`: `arr - 1e-6 * arr**2`. -/
noncomputable def nonlinearity_inverse (arr : List ℝ) : List ℝ :=
  arr.map fun x => x - 1e-6 * x ^ 2

/-- `CalibrationData.latency_correct`: identity below 3 pixels, else a
`[0.05, 0.90, 0.05]` same-mode convolution. -/
noncomputable def latency_correct (arr : List ℝ) : List ℝ :=
  if arr.length < 3 then arr else convolveSame arr [0.05, 0.90, 0.05]

/-- `CalibrationData.straylight_mm`: `[0.02, 0.96, 0.02]` convolution. -/
noncomputable def straylight_mm (arr : List ℝ) : List ℝ :=
  convolveSame arr [0.02, 0.96, 0.02]

/-- `CalibrationData.straylight_corrmm`: `[0.03, 0.94, 0.03]` convolution. -/
noncomputable def straylight_corrmm (arr : List ℝ) : List ℝ :=
  convolveSame arr [0.03, 0.94, 0.03]

/-- `CalibrationData.wavelength_correct`: identity placeholder. -/
def wavelength_correct (arr : List ℝ) : List ℝ := arr

/-- `dark_correction(spec, dark)`: no-op when `dark is None`, else
elementwise subtraction. -/
def dark_correction (spec : List ℝ) : Option (List ℝ) → List ℝ
  | none => spec
  | some dark => List.zipWith (· - ·) spec dark

/-- `prnu_correction(spec, cal)`: divide by `np.where(prnu == 0, 1, prnu)`. -/
noncomputable def prnu_correction (spec : List ℝ) (cal : CalR) : List ℝ :=
  List.zipWith (· / ·) spec (npWhereZeroOne cal.prnu)

/-- `temperature_correction(spec, temp_c, cal)`: no-op when `temp_c` is
`None`, else divide by `np.where(f == 0, 1, f)` for
`f = 1 + temp_coeff * (temp_c - ref_temp_c)`. -/
noncomputable def temperature_correction (spec : List ℝ) (temp_c : Option ℝ)
    (cal : CalR) : List ℝ :=
  match temp_c with
  | none => spec
  | some t =>
      List.zipWith (· / ·) spec
        (npWhereZeroOne (cal.temp_coeff.map fun c => 1 + c * (t - cal.ref_temp_c)))

/-- `sensitivity_correction(spec, cal)`. -/
noncomputable def sensitivity_correction (spec : List ℝ) (cal : CalR) : List ℝ :=
  List.zipWith (· / ·) spec (npWhereZeroOne cal.sensitivity)

/-- The seconds factor `max(integration_time_ms, 1e-9) / 1000.0` shared by
`to_count_rate` and `uncertainty_model`. -/
noncomputable def secondsOf (integration_time_ms : ℝ) : ℝ :=
  max integration_time_ms 1e-9 / 1000

/-- `to_count_rate(spec_counts, integration_time_ms)`. -/
noncomputable def to_count_rate (spec_counts : List ℝ)
    (integration_time_ms : ℝ) : List ℝ :=
  spec_counts.map fun x => x / secondsOf integration_time_ms

/-- `uncertainty_model`: `sqrt(clip(counts, 0, None) + floor²)`, divided by
the seconds factor when the output is a rate. -/
noncomputable def uncertainty_model (corrected_counts : List ℝ)
    (integration_time_ms : ℝ) (output_is_rate : Bool)
    (floor_counts : ℝ) : List ℝ :=
  let sigma_counts := corrected_counts.map fun x =>
    Real.sqrt (max x 0 + floor_counts ^ 2)
  if output_is_rate then
    sigma_counts.map fun s => s / secondsOf integration_time_ms
  else sigma_counts

/-! ## src/scodes.py -/

/-- `SCodeConfig` (immutable recipe). -/
structure SCodeConfig where
  code : String
  description : String
  dark : Bool
  dark_unc_source : String
  nonlinearity : Bool
  latency : Bool
  prnu : Bool
  count_rate : Bool
  temperature : Bool
  straylight_mode : String
  sensitivity : Bool
  wavelength : Bool
  qcode : String
  created : String
  author : String

/-- Recipe `cs00` from `get_scode_configs`. -/
def cs00 : SCodeConfig :=
  { code := "cs00", description := "Dark correction only"
    dark := true, dark_unc_source := "MEAS"
    nonlinearity := false, latency := false, prnu := false, count_rate := false
    temperature := false, straylight_mode := "NO", sensitivity := false
    wavelength := false, qcode := "nlim", created := "1-Dec-2016"
    author := "Alexander Cede" }

/-- Recipe `cs01` from `get_scode_configs`. -/
def cs01 : SCodeConfig :=
  { code := "cs01"
    description := "Dark, linearity, latency, PRNU and conversion to count rates"
    dark := true, dark_unc_source := "MEAS"
    nonlinearity := true, latency := true, prnu := true, count_rate := true
    temperature := false, straylight_mode := "NO", sensitivity := false
    wavelength := false, qcode := "nlim", created := "1-Dec-2016"
    author := "Alexander Cede" }

/-- Recipe `cs02` from `get_scode_configs`. -/
def cs02 : SCodeConfig :=
  { code := "cs02"
    description := "Dark, linearity, latency, PRNU, count rates, temperature correction"
    dark := true, dark_unc_source := "MEAS"
    nonlinearity := true, latency := true, prnu := true, count_rate := true
    temperature := true, straylight_mode := "NO", sensitivity := false
    wavelength := false, qcode := "nlim", created := "22-Feb-2017"
    author := "Alexander Cede" }

/-- Recipe `mca0` from `get_scode_configs` (all corrections). -/
def mca0 : SCodeConfig :=
  { code := "mca0", description := "All corrections applied"
    dark := true, dark_unc_source := "MAPSIGMA"
    nonlinearity := true, latency := true, prnu := true, count_rate := true
    temperature := true, straylight_mode := "CORRMM", sensitivity := true
    wavelength := true, qcode := "st00", created := "20-Jan-2017"
    author := "Alexander Cede" }

/-! ## src/models.py -/

/-- `L0Record`. -/
structure L0Record where
  timestamp : String
  integration_time_ms : ℝ
  spectrum_counts : List ℝ
  dark_counts : Option (List ℝ) := none
  temperature_c : Option ℝ := none
  metadata : List (String × String) := []

/-- `L1Record`. -/
structure L1Record where
  timestamp : String
  integration_time_ms : ℝ
  spectrum : List ℝ
  uncertainty : List ℝ
  processing_flag : ℕ
  dqf : ℕ
  metadata : List (String × String) := []

/-! ## src/processor.py -/

def BIT_DARK : ℕ := 0
def BIT_NONLINEARITY : ℕ := 1
def BIT_LATENCY : ℕ := 2
def BIT_PRNU : ℕ := 3
def BIT_COUNT_RATE : ℕ := 4
def BIT_TEMPERATURE : ℕ := 5
def BIT_STRAYLIGHT : ℕ := 6
def BIT_SENSITIVITY : ℕ := 7
def BIT_WAVELENGTH : ℕ := 8

/-- `ProcessStats`. -/
structure ProcessStats where
  total : ℕ := 0
  good : ℕ := 0
  medium : ℕ := 0
  low : ℕ := 0

/-- A float value for `_compute_dqf`'s finiteness test: `some x` is a
finite float of value `x`, `none` stands for a non-finite float
(NaN or ±Inf, which `np.isfinite` rejects alike). -/
def FVal := Option ℝ

/-- `_compute_dqf(spec, unc)`: tier 2 on any non-finite value, tier 2 when
`np.max(spec) ≤ 0`, else tiers from `snr = mean(spec)/(mean(unc)+1e-12)`.
(`np.max` raises on an empty `spec`; theorems about the max/snr branches
assume `spec ≠ []`.) -/
noncomputable def _compute_dqf (spec unc : List FVal) : ℕ :=
  if spec.any (fun v => Option.isNone v) || unc.any (fun v => Option.isNone v) then 2
  else
    let s := spec.map fun v => v.getD 0
    let u := unc.map fun v => v.getD 0
    if npMax s ≤ 0 then 2
    else
      let snr := npMean s / (npMean u + 1e-12)
      if snr < 5 then 2
      else if snr < 15 then 1
      else 0

/-- One guarded step of the loop body of `process_l0_to_l1`:
`if <recipe flag>: spec = f(spec); pflag |= (1 << bit)` acting on the
running `(spec, pflag)` pair. -/
def chainStep (cond : Bool) (f : List ℝ → List ℝ) (bit : ℕ)
    (st : List ℝ × ℕ) : List ℝ × ℕ :=
  if cond then (f st.1, st.2 ||| 1 <<< bit) else st

/-- The straylight dispatch of the loop body: `"MM"` and `"CORRMM"` each
apply their model and set `BIT_STRAYLIGHT`; anything else skips. -/
noncomputable def chainStray (mode : String) (st : List ℝ × ℕ) : List ℝ × ℕ :=
  if mode = "MM" then (straylight_mm st.1, st.2 ||| 1 <<< BIT_STRAYLIGHT)
  else if mode = "CORRMM" then (straylight_corrmm st.1, st.2 ||| 1 <<< BIT_STRAYLIGHT)
  else st

/-- Steps 1–8 of the per-record loop body of `process_l0_to_l1`: the
corrected spectrum and the accumulated `pflag` just before the clip,
starting from `(rec.spectrum_counts.astype(float).copy(), 0)`. -/
noncomputable def chainCore (scode : SCodeConfig) (cal : CalR) (rec : L0Record) :
    List ℝ × ℕ :=
  chainStep scode.wavelength wavelength_correct BIT_WAVELENGTH
    (chainStep scode.sensitivity (sensitivity_correction · cal) BIT_SENSITIVITY
      (chainStray scode.straylight_mode
        (chainStep scode.temperature
            (temperature_correction · rec.temperature_c cal) BIT_TEMPERATURE
          (chainStep scode.prnu (prnu_correction · cal) BIT_PRNU
            (chainStep scode.latency latency_correct BIT_LATENCY
              (chainStep scode.nonlinearity nonlinearity_inverse BIT_NONLINEARITY
                (chainStep scode.dark (dark_correction · rec.dark_counts) BIT_DARK
                  (rec.spectrum_counts, 0))))))))

/-- The clamped, pre-rate-conversion corrected spectrum
(`spec = np.clip(spec, 0, None)` after steps 1–8). -/
noncomputable def preRateSpec (scode : SCodeConfig) (cal : CalR) (rec : L0Record) :
    List ℝ :=
  npClip0 (chainCore scode cal rec).1

/-- One iteration of the record loop of `process_l0_to_l1`: the appended
`L1Record` (spectrum, uncertainty, flag, dqf, copied metadata). -/
noncomputable def processRecord (scode : SCodeConfig) (cal : CalR) (rec : L0Record) :
    L1Record :=
  let spec := preRateSpec scode cal rec
  let spec_out := if scode.count_rate then to_count_rate spec rec.integration_time_ms
                  else spec
  let pflag := if scode.count_rate then (chainCore scode cal rec).2 ||| 1 <<< BIT_COUNT_RATE
               else (chainCore scode cal rec).2
  let unc := uncertainty_model spec rec.integration_time_ms scode.count_rate 1.5
  { timestamp := rec.timestamp
    integration_time_ms := rec.integration_time_ms
    spectrum := spec_out
    uncertainty := unc
    processing_flag := pflag
    dqf := _compute_dqf (spec_out.map some) (unc.map some)
    metadata := rec.metadata }

/-- The record loop of `process_l0_to_l1`: appends one output record per
input record in order and bumps `good`/`medium`/`low` from the record's
dqf. -/
noncomputable def processLoop (scode : SCodeConfig) (cal : CalR) :
    List L0Record → List L1Record → ProcessStats → List L1Record × ProcessStats
  | [], out, stats => (out, stats)
  | rec :: rest, out, stats =>
      let o := processRecord scode cal rec
      let stats' :=
        if o.dqf = 0 then { stats with good := stats.good + 1 }
        else if o.dqf = 1 then { stats with medium := stats.medium + 1 }
        else { stats with low := stats.low + 1 }
      processLoop scode cal rest (out ++ [o]) stats'

/-- `process_l0_to_l1(records, scode, cal)`: stats start at
`total = len(records)`, then the loop runs over the records. -/
noncomputable def process_l0_to_l1 (records : List L0Record) (scode : SCodeConfig)
    (cal : CalR) : List L1Record × ProcessStats :=
  processLoop scode cal records [] { total := records.length }

/-! ## Loop characterization lemmas -/

/-- `good` counts records with dqf 0. -/
def isGood (o : L1Record) : Bool := o.dqf == 0

/-- `medium` counts records with dqf 1. -/
def isMedium (o : L1Record) : Bool := o.dqf == 1

/-- `low` counts the `else` branch of the dqf dispatch. -/
def isLow (o : L1Record) : Bool := !(o.dqf == 0) && !(o.dqf == 1)

theorem processLoop_fst (scode : SCodeConfig) (cal : CalR) (recs : List L0Record)
    (out : List L1Record) (stats : ProcessStats) :
    (processLoop scode cal recs out stats).1 =
      out ++ recs.map (processRecord scode cal) := by
  induction recs generalizing out stats with
  | nil => simp [processLoop]
  | cons rec rest ih =>
      simp only [processLoop, ih, List.map_cons, List.append_assoc,
        List.singleton_append]

theorem processLoop_total (scode : SCodeConfig) (cal : CalR) (recs : List L0Record)
    (out : List L1Record) (stats : ProcessStats) :
    (processLoop scode cal recs out stats).2.total = stats.total := by
  induction recs generalizing out stats with
  | nil => simp [processLoop]
  | cons rec rest ih =>
      simp only [processLoop, ih]
      split_ifs <;> rfl

theorem processLoop_good (scode : SCodeConfig) (cal : CalR) (recs : List L0Record)
    (out : List L1Record) (stats : ProcessStats) :
    (processLoop scode cal recs out stats).2.good =
      stats.good + (recs.map (processRecord scode cal)).countP isGood := by
  induction recs generalizing out stats with
  | nil => simp [processLoop]
  | cons rec rest ih =>
      simp only [processLoop, ih, List.map_cons, List.countP_cons, isGood]
      by_cases h0 : (processRecord scode cal rec).dqf = 0 <;>
        by_cases h1 : (processRecord scode cal rec).dqf = 1 <;>
          simp [h0, h1] <;> omega

theorem processLoop_medium (scode : SCodeConfig) (cal : CalR) (recs : List L0Record)
    (out : List L1Record) (stats : ProcessStats) :
    (processLoop scode cal recs out stats).2.medium =
      stats.medium + (recs.map (processRecord scode cal)).countP isMedium := by
  induction recs generalizing out stats with
  | nil => simp [processLoop]
  | cons rec rest ih =>
      simp only [processLoop, ih, List.map_cons, List.countP_cons, isMedium]
      by_cases h0 : (processRecord scode cal rec).dqf = 0 <;>
        by_cases h1 : (processRecord scode cal rec).dqf = 1 <;>
          simp [h0, h1] <;> omega

theorem processLoop_low (scode : SCodeConfig) (cal : CalR) (recs : List L0Record)
    (out : List L1Record) (stats : ProcessStats) :
    (processLoop scode cal recs out stats).2.low =
      stats.low + (recs.map (processRecord scode cal)).countP isLow := by
  induction recs generalizing out stats with
  | nil => simp [processLoop]
  | cons rec rest ih =>
      simp only [processLoop, ih, List.map_cons, List.countP_cons, isLow]
      by_cases h0 : (processRecord scode cal rec).dqf = 0 <;>
        by_cases h1 : (processRecord scode cal rec).dqf = 1 <;>
          simp [h0, h1] <;> omega

theorem countP_partition (l : List L1Record) :
    l.countP isGood + l.countP isMedium + l.countP isLow = l.length := by
  induction l with
  | nil => simp
  | cons o rest ih =>
      simp only [List.countP_cons, List.length_cons, isGood, isMedium, isLow]
      by_cases h0 : o.dqf = 0 <;> by_cases h1 : o.dqf = 1 <;>
        simp [h0, h1] <;> omega

/-- C2: one output per input in order, and
`good + medium + low = total = len(records)`. -/
theorem c2_batch_invariants (records : List L0Record) (scode : SCodeConfig)
    (cal : CalR) :
    (process_l0_to_l1 records scode cal).1 =
        records.map (processRecord scode cal) ∧
    (process_l0_to_l1 records scode cal).2.good +
        (process_l0_to_l1 records scode cal).2.medium +
        (process_l0_to_l1 records scode cal).2.low =
      (process_l0_to_l1 records scode cal).2.total ∧
    (process_l0_to_l1 records scode cal).2.total = records.length := by
  unfold process_l0_to_l1
  refine ⟨by simpa using processLoop_fst scode cal records [] _, ?_, ?_⟩
  · rw [processLoop_good, processLoop_medium, processLoop_low,
      processLoop_total]
    simpa using (countP_partition (records.map (processRecord scode cal))).trans
      (by simp)
  · rw [processLoop_total]

/-! ## Flag lemmas -/

theorem chainStep_snd (cond : Bool) (f : List ℝ → List ℝ) (bit : ℕ)
    (st : List ℝ × ℕ) :
    (chainStep cond f bit st).2 = st.2 ||| (if cond then 1 <<< bit else 0) := by
  cases cond <;> simp [chainStep]

theorem chainStep_fst (cond : Bool) (f : List ℝ → List ℝ) (bit : ℕ)
    (st : List ℝ × ℕ) :
    (chainStep cond f bit st).1 = if cond then f st.1 else st.1 := by
  cases cond <;> simp [chainStep]

theorem chainStray_snd (mode : String) (st : List ℝ × ℕ) :
    (chainStray mode st).2 =
      st.2 ||| (if mode = "MM" then 1 <<< BIT_STRAYLIGHT
                else if mode = "CORRMM" then 1 <<< BIT_STRAYLIGHT else 0) := by
  unfold chainStray
  split_ifs <;> simp

theorem chainStray_fst (mode : String) (st : List ℝ × ℕ) :
    (chainStray mode st).1 =
      (if mode = "MM" then straylight_mm st.1
       else if mode = "CORRMM" then straylight_corrmm st.1 else st.1) := by
  unfold chainStray
  split_ifs <;> simp

/-- The `pflag` accumulated through steps 1–8 is exactly the or of one bit
per recipe-enabled step; no spectral value and no per-record optional
field enters any guard. -/
theorem chainCore_snd (scode : SCodeConfig) (cal : CalR) (rec : L0Record) :
    (chainCore scode cal rec).2 =
      (if scode.dark then 1 <<< BIT_DARK else 0) |||
      (if scode.nonlinearity then 1 <<< BIT_NONLINEARITY else 0) |||
      (if scode.latency then 1 <<< BIT_LATENCY else 0) |||
      (if scode.prnu then 1 <<< BIT_PRNU else 0) |||
      (if scode.temperature then 1 <<< BIT_TEMPERATURE else 0) |||
      (if scode.straylight_mode = "MM" then 1 <<< BIT_STRAYLIGHT
       else if scode.straylight_mode = "CORRMM" then 1 <<< BIT_STRAYLIGHT else 0) |||
      (if scode.sensitivity then 1 <<< BIT_SENSITIVITY else 0) |||
      (if scode.wavelength then 1 <<< BIT_WAVELENGTH else 0) := by
  simp only [chainCore, chainStep_snd, chainStray_snd, Nat.zero_or,
    Nat.or_assoc]

/-- The final `processing_flag` adds only the count-rate bit, again gated
by the recipe alone. -/
theorem processRecord_flag (scode : SCodeConfig) (cal : CalR) (rec : L0Record) :
    (processRecord scode cal rec).processing_flag =
      (if scode.count_rate then
        (chainCore scode cal rec).2 ||| 1 <<< BIT_COUNT_RATE
       else (chainCore scode cal rec).2) := rfl

/-- Sample record with dark and temperature data present. -/
def recA : L0Record :=
  { timestamp := "a", integration_time_ms := 500, spectrum_counts := [10, 20, 30]
    dark_counts := some [1, 1, 1], temperature_c := some 25 }

/-- Sample record with both optional fields absent. -/
def recB : L0Record :=
  { timestamp := "b", integration_time_ms := 1000, spectrum_counts := [0, 0, 0] }

/-- Sample record without dark data (dark step must be a numeric no-op). -/
def rec_noDark : L0Record :=
  { timestamp := "t", integration_time_ms := 1000, spectrum_counts := [100, 100, 100] }

/-- Fallback record used with `List.getD`. -/
def dummyL1 : L1Record :=
  { timestamp := "", integration_time_ms := 0, spectrum := [], uncertainty := []
    processing_flag := 0, dqf := 0 }

/-- C9: under a fixed recipe, every record in a batch receives the same
`processing_flag` — the flag is a function of the recipe's switches alone
and is independent of spectra, `dark_counts` and `temperature_c`. -/
theorem c9_flags_recipe_only (scode : SCodeConfig) (cal : CalR)
    (recs : List L0Record) :
    ∀ o1 ∈ (process_l0_to_l1 recs scode cal).1,
      ∀ o2 ∈ (process_l0_to_l1 recs scode cal).1,
        o1.processing_flag = o2.processing_flag := by
  intro o1 h1 o2 h2
  rw [process_l0_to_l1, processLoop_fst, List.nil_append] at h1 h2
  obtain ⟨r1, _, rfl⟩ := List.mem_map.1 h1
  obtain ⟨r2, _, rfl⟩ := List.mem_map.1 h2
  rw [processRecord_flag, processRecord_flag, chainCore_snd, chainCore_snd]

/-- C9 witness: a two-record batch under `cs02`, one record with dark and
temperature data and one with neither, gets identical flags. -/
theorem c9_witness :
    ((process_l0_to_l1 [recA, recB] cs02 (calArrays 3)).1.getD 0 dummyL1).processing_flag =
    ((process_l0_to_l1 [recA, recB] cs02 (calArrays 3)).1.getD 1 dummyL1).processing_flag := by
  refine c9_flags_recipe_only cs02 (calArrays 3) [recA, recB] _ ?_ _ ?_ <;>
    simp [process_l0_to_l1, processLoop]

theorem shiftLeft_one_succ_mod_two (k : ℕ) : (1 <<< (k + 1)) % 2 = 0 := by
  rw [Nat.shiftLeft_eq, one_mul, pow_succ]
  exact Nat.mul_mod_left _ 2

theorem testBit0_or_even (a b : ℕ) (h : b % 2 = 0) :
    (a ||| b).testBit 0 = a.testBit 0 := by
  rw [Nat.testBit_or]
  simp [Nat.testBit_zero, h]

/-- C1 (amended): bit 0 of the mask equals `recipe.dark` whether or not
`darkCounts` is present; with `darkCounts` absent the dark step is a
numeric no-op but the bit is still set when the recipe requests it. -/
theorem c1_amended (scode : SCodeConfig) (cal : CalR) (rec : L0Record)
    (h : rec.dark_counts = none) :
    (processRecord scode cal rec).processing_flag.testBit 0 = scode.dark ∧
    dark_correction rec.spectrum_counts rec.dark_counts = rec.spectrum_counts := by
  constructor
  · have hb : ∀ (c : Bool) (k : ℕ), (if c = true then 1 <<< (k + 1) else 0) % 2 = 0 := by
      intro c k
      cases c
      · simp
      · simp [shiftLeft_one_succ_mod_two]
    have hs : (if scode.straylight_mode = "MM" then 1 <<< BIT_STRAYLIGHT
               else if scode.straylight_mode = "CORRMM" then 1 <<< BIT_STRAYLIGHT
               else 0) % 2 = 0 := by
      split_ifs <;> simp [show BIT_STRAYLIGHT = 5 + 1 from rfl, shiftLeft_one_succ_mod_two]
    rw [processRecord_flag, chainCore_snd]
    rw [show BIT_COUNT_RATE = 3 + 1 from rfl, show BIT_NONLINEARITY = 0 + 1 from rfl,
      show BIT_LATENCY = 1 + 1 from rfl, show BIT_PRNU = 2 + 1 from rfl,
      show BIT_TEMPERATURE = 4 + 1 from rfl, show BIT_SENSITIVITY = 6 + 1 from rfl,
      show BIT_WAVELENGTH = 7 + 1 from rfl]
    cases hcr : scode.count_rate <;>
      simp only [Bool.false_eq_true, if_false, if_true,
        testBit0_or_even _ _ (hb _ _), testBit0_or_even _ _ hs,
        testBit0_or_even _ _ (shiftLeft_one_succ_mod_two _)] <;>
      cases hd : scode.dark <;> decide
  · rw [h]; rfl

/-- C1 amended witness: under `cs00` (dark requested) with `darkCounts`
absent, bit 0 is `cs00.dark = true` yet the dark step left the spectrum
unchanged. -/
theorem c1_amended_witness :
    (processRecord cs00 (calArrays 3) rec_noDark).processing_flag.testBit 0 = cs00.dark ∧
    dark_correction rec_noDark.spectrum_counts rec_noDark.dark_counts =
      rec_noDark.spectrum_counts :=
  c1_amended cs00 (calArrays 3) rec_noDark rfl

/-- C1 counterexample: a record with `darkCounts` absent processed under
`cs00` (which has `applyDark = true`) comes out with bit 0 of
`processing_flag` SET, refuting "bit 0 is clear whenever `darkCounts` is
absent". -/
theorem c1_counterexample :
    ((process_l0_to_l1 [rec_noDark] cs00 (calArrays 3)).1.getD 0 dummyL1).processing_flag.testBit 0 =
      true := by
  have h : (process_l0_to_l1 [rec_noDark] cs00 (calArrays 3)).1 =
      [processRecord cs00 (calArrays 3) rec_noDark] := by
    rw [process_l0_to_l1, processLoop_fst]; rfl
  rw [h, List.getD_cons_zero, processRecord_flag, chainCore_snd]
  decide

/-! ## Zero-guard lemmas (C5) -/

theorem npWhereZeroOne_ne_zero (l : List ℝ) : ∀ d ∈ npWhereZeroOne l, d ≠ 0 := by
  intro d hd
  obtain ⟨p, _, rfl⟩ := List.mem_map.1 hd
  by_cases hp : p = 0 <;> simp [hp]

theorem zip_div_guard (spec l : List ℝ) (i : ℕ) (hi : i < spec.length)
    (hl : i < l.length) (h0 : l.getD i 1 = 0) :
    (List.zipWith (· / ·) spec (npWhereZeroOne l)).getD i 0 = spec.getD i 0 := by
  have hlen : i < (List.zipWith (· / ·) spec (npWhereZeroOne l)).length := by
    simp [List.length_zipWith, npWhereZeroOne]
    omega
  have hli : i < (npWhereZeroOne l).length := by
    simpa [npWhereZeroOne] using hl
  have hval : (npWhereZeroOne l)[i] = 1 := by
    rw [List.getD_eq_getElem _ _ hl] at h0
    simp [npWhereZeroOne, h0]
  rw [List.getD_eq_getElem _ _ hlen, List.getD_eq_getElem _ _ hi,
    List.getElem_zipWith, hval, div_one]

/-- C5: in the PRNU, temperature and sensitivity steps a divisor entry of
exactly `0.0` is substituted with `1.0` — the pixel's value passes through
unchanged — and the substituted divisor array never contains `0`, so the
division introduces no division-by-zero at any pixel. -/
theorem c5_zero_guard (spec : List ℝ) (cal : CalR) (t : ℝ) :
    (∀ l : List ℝ, ∀ d ∈ npWhereZeroOne l, d ≠ 0) ∧
    (∀ i, i < spec.length → i < cal.prnu.length → cal.prnu.getD i 1 = 0 →
      (prnu_correction spec cal).getD i 0 = spec.getD i 0) ∧
    (∀ i, i < spec.length → i < cal.temp_coeff.length →
      (cal.temp_coeff.map fun c => 1 + c * (t - cal.ref_temp_c)).getD i 1 = 0 →
      (temperature_correction spec (some t) cal).getD i 0 = spec.getD i 0) ∧
    (∀ i, i < spec.length → i < cal.sensitivity.length → cal.sensitivity.getD i 1 = 0 →
      (sensitivity_correction spec cal).getD i 0 = spec.getD i 0) := by
  refine ⟨npWhereZeroOne_ne_zero, ?_, ?_, ?_⟩
  · intro i hi hl h0
    exact zip_div_guard spec cal.prnu i hi hl h0
  · intro i hi hl h0
    exact zip_div_guard spec _ i hi (by simpa using hl) h0
  · intro i hi hl h0
    exact zip_div_guard spec cal.sensitivity i hi hl h0

/-- Calibration with a zero PRNU entry, a zero sensitivity entry, and a
temperature coefficient that makes the temperature divisor vanish at
`t = 19` (`1 + 1·(19 − 20) = 0`). -/
def calZ : CalR :=
  { prnu := [0], temp_coeff := [1], sensitivity := [0]
    wavelength_nm := [280], ref_temp_c := 20 }

/-- C5 witness: with divisor entries exactly `0.0`, all three corrections
leave the pixel's value `5` unchanged. -/
theorem c5_witness :
    (prnu_correction [5] calZ).getD 0 0 = ([5] : List ℝ).getD 0 0 ∧
    (temperature_correction [5] (some 19) calZ).getD 0 0 = ([5] : List ℝ).getD 0 0 ∧
    (sensitivity_correction [5] calZ).getD 0 0 = ([5] : List ℝ).getD 0 0 := by
  obtain ⟨-, hp, ht, hs⟩ := c5_zero_guard [5] calZ 19
  refine ⟨hp 0 (by norm_num) (by simp [calZ]) (by simp [calZ]),
          ht 0 (by norm_num) (by simp [calZ]) (by simp [calZ]; norm_num),
          hs 0 (by norm_num) (by simp [calZ]) (by simp [calZ])⟩

/-! ## Rate conversion (C6) -/

/-- C6: with `convertToCountRate` set the final spectrum is the pre-rate
spectrum divided elementwise by `max(integrationTimeMs, 1e-9)/1000`, the
uncertainty is the counts-mode uncertainty divided by the same factor, and
concretely 100 counts at 500 ms become 200 counts/second. -/
theorem c6_rate_conversion (scode : SCodeConfig) (cal : CalR) (rec : L0Record)
    (h : scode.count_rate = true) :
    (processRecord scode cal rec).spectrum =
      (preRateSpec scode cal rec).map
        (fun x => x / (max rec.integration_time_ms 1e-9 / 1000)) ∧
    (processRecord scode cal rec).uncertainty =
      (uncertainty_model (preRateSpec scode cal rec)
          rec.integration_time_ms false 1.5).map
        (fun s => s / (max rec.integration_time_ms 1e-9 / 1000)) ∧
    to_count_rate [100] 500 = [200] := by
  refine ⟨?_, ?_, ?_⟩
  · simp [processRecord, h, to_count_rate, secondsOf]
  · simp [processRecord, h, uncertainty_model, secondsOf]
  · have h500 : max (500 : ℝ) 1e-9 = 500 := max_eq_left (by norm_num)
    simp [to_count_rate, secondsOf, h500]
    norm_num

/-- C6 witness at recipe `cs01` and a concrete record. -/
theorem c6_witness :
    (processRecord cs01 (calArrays 3) recA).spectrum =
      (preRateSpec cs01 (calArrays 3) recA).map
        (fun x => x / (max recA.integration_time_ms 1e-9 / 1000)) ∧
    (processRecord cs01 (calArrays 3) recA).uncertainty =
      (uncertainty_model (preRateSpec cs01 (calArrays 3) recA)
          recA.integration_time_ms false 1.5).map
        (fun s => s / (max recA.integration_time_ms 1e-9 / 1000)) ∧
    to_count_rate [100] 500 = [200] :=
  c6_rate_conversion cs01 (calArrays 3) recA rfl

/-! ## Calibration construction (C7) -/

theorem linspace_length (a b : ℝ) (n : ℕ) : (linspace a b n).length = n := by
  unfold linspace
  split_ifs <;> simp

/-- C7 (amended): constructing the calibration model never raises a
`ConfigurationError` (no such check exists in the source): it fails — with
numpy's `ValueError` — exactly when `N < 0`, succeeds for every `N ≥ 0`
including `N = 0` (empty arrays), and for `N ≥ 0` populates PRNU and
sensitivity with `1.0`, temperature coefficients with `0.0` and the
`linspace(280, 530, N)` wavelength ramp, each of length exactly `N`. -/
theorem c7_amended (n : ℤ) :
    (n < 0 → mkCalibrationData n = none) ∧
    (0 ≤ n → mkCalibrationData n = some (calArrays n.toNat) ∧
      (calArrays n.toNat).prnu = List.replicate n.toNat 1 ∧
      (calArrays n.toNat).temp_coeff = List.replicate n.toNat 0 ∧
      (calArrays n.toNat).sensitivity = List.replicate n.toNat 1 ∧
      (calArrays n.toNat).wavelength_nm = linspace 280 530 n.toNat ∧
      (calArrays n.toNat).prnu.length = n.toNat ∧
      (calArrays n.toNat).temp_coeff.length = n.toNat ∧
      (calArrays n.toNat).sensitivity.length = n.toNat ∧
      (calArrays n.toNat).wavelength_nm.length = n.toNat ∧
      (∀ i : ℕ, 2 ≤ n.toNat → i < n.toNat →
        (calArrays n.toNat).wavelength_nm.getD i 0 =
          280 + (i : ℝ) * ((530 - 280) / ((n.toNat - 1 : ℕ) : ℝ)))) := by
  constructor
  · intro hneg
    simp [mkCalibrationData, hneg]
  · intro hpos
    refine ⟨by simp [mkCalibrationData, not_lt.2 hpos], rfl, rfl, rfl, rfl,
      by simp [calArrays], by simp [calArrays], by simp [calArrays],
      by simp [calArrays, linspace_length], ?_⟩
    intro i h2 hi
    have hn1 : ¬ n.toNat ≤ 1 := by omega
    have hlt : i < ((List.range n.toNat).map
        (fun i : ℕ => (280 : ℝ) + (i : ℝ) * ((530 - 280) / ((n.toNat - 1 : ℕ) : ℝ)))).length := by
      simpa using hi
    simp only [calArrays, linspace, if_neg hn1]
    rw [List.getD_eq_getElem _ _ hlt]
    simp

/-- C7 amended witness at `N = -2` (fails) and `N = 5` (identity arrays of
length 5, ramp entries spaced by 62.5). -/
theorem c7_witness :
    mkCalibrationData (-2) = none ∧
    mkCalibrationData 5 = some (calArrays 5) ∧
    (calArrays 5).prnu = List.replicate 5 1 ∧
    (calArrays 5).wavelength_nm.getD 1 0 = 342.5 := by
  have h2 := (c7_amended 5).2 (by norm_num)
  rw [show (5 : ℤ).toNat = 5 from rfl] at h2
  obtain ⟨hmk, hp, -, -, -, -, -, -, -, hw⟩ := h2
  refine ⟨(c7_amended (-2)).1 (by norm_num), hmk, hp, ?_⟩
  have h1 := hw 1 (by norm_num) (by norm_num)
  rw [h1]
  norm_num

/-- C7 counterexample: at `N = 0` construction succeeds (empty placeholder
arrays), so "fails with ConfigurationError if N ≤ 0" is false — indeed no
`ConfigurationError` exists anywhere in the source. -/
theorem c7_counterexample : mkCalibrationData 0 = some (calArrays 0) := rfl

/-! ## Uncertainty model (C3, C10) -/

theorem processRecord_spectrum (scode : SCodeConfig) (cal : CalR) (rec : L0Record) :
    (processRecord scode cal rec).spectrum =
      (if scode.count_rate then
        to_count_rate (preRateSpec scode cal rec) rec.integration_time_ms
       else preRateSpec scode cal rec) := rfl

theorem processRecord_uncertainty (scode : SCodeConfig) (cal : CalR) (rec : L0Record) :
    (processRecord scode cal rec).uncertainty =
      uncertainty_model (preRateSpec scode cal rec)
        rec.integration_time_ms scode.count_rate 1.5 := rfl

/-- C3: the output uncertainty is `sqrt(max(x,0) + 1.5²)` applied to the
clamped, pre-rate-conversion corrected spectrum, divided by the seconds
factor `max(integrationTimeMs, 1e-9)/1000` exactly when the recipe
converts to a count rate, and it always has the same length as the output
spectrum. -/
theorem c3_uncertainty_model (scode : SCodeConfig) (cal : CalR) (rec : L0Record) :
    (processRecord scode cal rec).uncertainty =
      (preRateSpec scode cal rec).map (fun x =>
        Real.sqrt (max x 0 + 1.5 ^ 2) /
          (if scode.count_rate then max rec.integration_time_ms 1e-9 / 1000 else 1)) ∧
    (processRecord scode cal rec).uncertainty.length =
      (processRecord scode cal rec).spectrum.length := by
  constructor
  · rw [processRecord_uncertainty]
    cases h : scode.count_rate <;>
      simp [uncertainty_model, secondsOf, List.map_map, Function.comp]
  · rw [processRecord_uncertainty, processRecord_spectrum]
    cases h : scode.count_rate <;>
      simp [uncertainty_model, to_count_rate]

/-- C10: every entry of the returned uncertainty is at least the floor
(1.5 in counts mode, 1.5 divided by the seconds factor in rate mode),
that floor is strictly positive, and the classifier's mean-uncertainty
denominator `mean(unc) + 1e-12` is strictly positive. -/
theorem c10_uncertainty_floor (corrected : List ℝ) (it : ℝ) (rate : Bool) :
    (∀ u ∈ uncertainty_model corrected it rate 1.5,
        (if rate then (1.5 : ℝ) / secondsOf it else 1.5) ≤ u) ∧
    (0 < (if rate then (1.5 : ℝ) / secondsOf it else 1.5)) ∧
    0 < npMean (uncertainty_model corrected it rate 1.5) + 1e-12 := by
  have hsec : 0 < secondsOf it := by
    unfold secondsOf
    have : (1e-9 : ℝ) ≤ max it 1e-9 := le_max_right _ _
    positivity
  have hfloor : ∀ x : ℝ, (1.5 : ℝ) ≤ Real.sqrt (max x 0 + 1.5 ^ 2) := by
    intro x
    have h1 : ((1.5 : ℝ)) = Real.sqrt (1.5 ^ 2) := by
      rw [Real.sqrt_sq (by norm_num : (0:ℝ) ≤ 1.5)]
    rw [h1]
    apply Real.sqrt_le_sqrt
    have : (0:ℝ) ≤ max x 0 := le_max_right _ _
    nlinarith [Real.sq_sqrt (show (0:ℝ) ≤ 1.5 ^ 2 by norm_num)]
  have hmem : ∀ u ∈ uncertainty_model corrected it rate 1.5,
      (if rate then (1.5 : ℝ) / secondsOf it else 1.5) ≤ u := by
    intro u hu
    cases rate with
    | false =>
        simp only [uncertainty_model, if_neg (by simp : ¬ (false : Bool) = true)] at hu
        obtain ⟨x, -, rfl⟩ := List.mem_map.1 hu
        simpa using hfloor x
    | true =>
        simp only [uncertainty_model, if_pos rfl, List.map_map] at hu
        obtain ⟨x, -, rfl⟩ := List.mem_map.1 hu
        simpa using div_le_div_of_nonneg_right (c := secondsOf it) (hfloor x) hsec.le
  have hpos : 0 < (if rate then (1.5 : ℝ) / secondsOf it else 1.5) := by
    cases rate <;> simp <;> positivity
  refine ⟨hmem, hpos, ?_⟩
  have hnn : 0 ≤ npMean (uncertainty_model corrected it rate 1.5) := by
    unfold npMean
    apply div_nonneg _ (by positivity)
    apply List.sum_nonneg
    intro u hu
    exact le_trans (le_of_lt hpos) (hmem u hu)
  nlinarith

/-- C10 witness at one finite pixel of 100 counts at 500 ms in rate mode. -/
theorem c10_witness :
    (1.5 : ℝ) / secondsOf 500 ≤
      Real.sqrt (max 100 0 + 1.5 ^ 2) / secondsOf 500 ∧
    0 < npMean (uncertainty_model [100] 500 true 1.5) + 1e-12 := by
  obtain ⟨hmem, -, hmean⟩ := c10_uncertainty_floor [100] 500 true
  refine ⟨?_, hmean⟩
  have h := hmem (Real.sqrt (max 100 0 + 1.5 ^ 2) / secondsOf 500)
    (by simp [uncertainty_model])
  simpa using h

/-! ## Quality classifier (C4) -/

/-- C4: the classifier is a pure function of its two arrays: tier Low (2)
when any value is non-finite (`none`) or when the spectrum's maximum is
`≤ 0`; otherwise, with `snr = mean(spec)/(mean(unc)+1e-12)`, tier Low for
`snr < 5`, Medium (1) for `5 ≤ snr < 15`, Good (0) for `snr ≥ 15`.
(`spec ≠ []` mirrors numpy's requirement that `np.max` sees a non-empty
array.) -/
theorem c4_quality_classifier (spec unc : List FVal) (_hne : spec ≠ []) :
    ((spec.any (fun v => Option.isNone v) || unc.any (fun v => Option.isNone v)) = true →
      _compute_dqf spec unc = 2) ∧
    ((spec.any (fun v => Option.isNone v) || unc.any (fun v => Option.isNone v)) = false →
      (npMax (spec.map fun v => v.getD 0) ≤ 0 → _compute_dqf spec unc = 2) ∧
      (0 < npMax (spec.map fun v => v.getD 0) →
        (npMean (spec.map fun v => v.getD 0) /
            (npMean (unc.map fun v => v.getD 0) + 1e-12) < 5 →
          _compute_dqf spec unc = 2) ∧
        (5 ≤ npMean (spec.map fun v => v.getD 0) /
            (npMean (unc.map fun v => v.getD 0) + 1e-12) →
         npMean (spec.map fun v => v.getD 0) /
            (npMean (unc.map fun v => v.getD 0) + 1e-12) < 15 →
          _compute_dqf spec unc = 1) ∧
        (15 ≤ npMean (spec.map fun v => v.getD 0) /
            (npMean (unc.map fun v => v.getD 0) + 1e-12) →
          _compute_dqf spec unc = 0))) := by
  constructor
  · intro h
    simp [_compute_dqf, h]
  · intro h
    simp only [_compute_dqf, h, Bool.false_eq_true, if_false]
    refine ⟨fun hmax => by rw [if_pos hmax], fun hmax => ?_⟩
    rw [if_neg (not_le.2 hmax)]
    refine ⟨fun hlt => by rw [if_pos hlt], fun h5 h15 => ?_, fun h15 => ?_⟩
    · rw [if_neg (not_lt.2 h5), if_pos h15]
    · rw [if_neg (not_lt.2 (le_trans (by norm_num) h15)),
        if_neg (not_lt.2 h15)]

/-- C4 witness: one finite pixel of 20 with uncertainty 1 gives
`snr = 20/(1+1e-12) ≥ 15`, hence Good (0). -/
theorem c4_witness : _compute_dqf [some (20 : ℝ)] [some (1 : ℝ)] = 0 := by
  have h := ((c4_quality_classifier [some (20 : ℝ)] [some (1 : ℝ)]
      (by simp)).2 (by simp)).2
  have hmax : 0 < npMax (([some (20 : ℝ)] : List FVal).map fun v => v.getD 0) := by
    simp [npMax]
  refine (h hmax).2.2 ?_
  have hs : npMean (([some (20 : ℝ)] : List FVal).map fun v => v.getD 0) = 20 := by
    simp [npMean]
  have hu : npMean (([some (1 : ℝ)] : List FVal).map fun v => v.getD 0) = 1 := by
    simp [npMean]
  rw [hs, hu, le_div_iff₀ (by norm_num)]
  norm_num

/-! ## Step composition cs00 → cs01 (C8) -/

theorem convolveSame_three (a0 a1 a2 k0 k1 k2 : ℝ) :
    convolveSame [a0, a1, a2] [k0, k1, k2] =
      [k0 * a1 + k1 * a0, k0 * a2 + k1 * a1 + k2 * a0, k1 * a2 + k2 * a1] := by
  have h3 : List.range 3 = [0, 1, 2] := rfl
  simp only [convolveSame, List.length_cons, List.length_nil]
  norm_num [h3, getPad]
  simp [show Int.toNat 2 = 2 from rfl, show Int.toNat 3 = 3 from rfl]
  ring

theorem latency_correct_three (a0 a1 a2 : ℝ) :
    latency_correct [a0, a1, a2] =
      [0.05 * a1 + 0.90 * a0, 0.05 * a2 + 0.90 * a1 + 0.05 * a0,
       0.90 * a2 + 0.05 * a1] := by
  rw [latency_correct, if_neg (by norm_num), convolveSame_three]

theorem cs00_spectrum (cal : CalR) (rec : L0Record) :
    (processRecord cs00 cal rec).spectrum =
      npClip0 (dark_correction rec.spectrum_counts rec.dark_counts) := rfl

theorem cs01_preRate (cal : CalR) (rec : L0Record) :
    preRateSpec cs01 cal rec =
      npClip0 (prnu_correction (latency_correct (nonlinearity_inverse
        (dark_correction rec.spectrum_counts rec.dark_counts))) cal) := rfl

theorem cs01_spectrum (cal : CalR) (rec : L0Record) :
    (processRecord cs01 cal rec).spectrum =
      to_count_rate (preRateSpec cs01 cal rec) rec.integration_time_ms := rfl

/-- Modelled from the spec (§8 "Monotone order"): the remaining `cs01`
steps — nonlinearity, latency, PRNU, rate conversion — manually re-applied
to `cs00`'s output spectrum. -/
noncomputable def cs01_steps_reapplied (cal : CalR) (rec : L0Record) : List ℝ :=
  to_count_rate
    (prnu_correction
      (latency_correct (nonlinearity_inverse (processRecord cs00 cal rec).spectrum))
      cal)
    rec.integration_time_ms

/-- Record whose dark-corrected spectrum has negative pixels, so `cs00`'s
final clamp bites before the re-applied steps. -/
def recC : L0Record :=
  { timestamp := "c", integration_time_ms := 1000
    spectrum_counts := [0, 100, 0], dark_counts := some [50, 0, 50] }

/-- Record with an all-zero spectrum and no dark frame: every clamp is a
no-op. -/
def recD : L0Record :=
  { timestamp := "d", integration_time_ms := 1000, spectrum_counts := [0, 0, 0] }

theorem prnu_calArrays_three (x : List ℝ) (h : x.length = 3) :
    prnu_correction x (calArrays 3) = x := by
  have hw : npWhereZeroOne (calArrays 3).prnu = [1, 1, 1] := by
    simp [npWhereZeroOne, calArrays, List.replicate]
  match x, h with
  | [x0, x1, x2], _ =>
      simp [prnu_correction, hw]

/-- C8 counterexample: for `recC` (dark-corrected spectrum `[-50,100,-50]`)
running `cs00` and re-applying the remaining `cs01` steps gives
`[4.9995, 89.991, 4.9995]`, while `cs01` directly gives
`[0, 84.99075, 0]` — the clamp between the step groups does not commute
with the later steps. -/
theorem c8_counterexample :
    cs01_steps_reapplied (calArrays 3) recC ≠
      (processRecord cs01 (calArrays 3) recC).spectrum := by
  have hdark : dark_correction recC.spectrum_counts recC.dark_counts =
      [-50, 100, -50] := by
    norm_num [recC, dark_correction]
  have hL : cs01_steps_reapplied (calArrays 3) recC = [4.9995, 89.991, 4.9995] := by
    unfold cs01_steps_reapplied
    rw [cs00_spectrum, hdark]
    have hclip : npClip0 [(-50 : ℝ), 100, -50] = [0, 100, 0] := by
      norm_num [npClip0, max_def]
    rw [hclip]
    have hnl : nonlinearity_inverse [(0 : ℝ), 100, 0] = [0, 99.99, 0] := by
      simp [nonlinearity_inverse]
      norm_num
    rw [hnl, latency_correct_three]
    rw [prnu_calArrays_three _ (by simp)]
    have hsec : secondsOf recC.integration_time_ms = 1 := by
      simp [secondsOf, recC, max_def]
      norm_num
    norm_num [to_count_rate, hsec]
  have hR : (processRecord cs01 (calArrays 3) recC).spectrum = [0, 84.99075, 0] := by
    rw [cs01_spectrum, cs01_preRate, hdark]
    have hnl : nonlinearity_inverse [(-50 : ℝ), 100, -50] =
        [-50.0025, 99.99, -50.0025] := by
      norm_num [nonlinearity_inverse]
    rw [hnl, latency_correct_three]
    rw [prnu_calArrays_three _ (by simp)]
    have hclip : npClip0 [(0.05 : ℝ) * 99.99 + 0.90 * (-50.0025),
        0.05 * (-50.0025) + 0.90 * 99.99 + 0.05 * (-50.0025),
        0.90 * (-50.0025) + 0.05 * 99.99] = [0, 84.99075, 0] := by
      simp [npClip0, max_def]
      norm_num
    rw [hclip]
    have hsec : secondsOf recC.integration_time_ms = 1 := by
      simp [secondsOf, recC, max_def]
      norm_num
    norm_num [to_count_rate, hsec]
  rw [hL, hR]
  simp only [ne_eq, List.cons.injEq, not_and]
  intro h
  norm_num at h

/-- C8 (amended): re-applying the remaining `cs01` steps to `cs00`'s
output equals running `cs01` directly whenever the two clamps involved are
no-ops — i.e. the dark-corrected spectrum and the pre-clamp `cs01`
spectrum are already nonnegative.  (The counterexample shows the claim
fails without these conditions.) -/
theorem c8_amended (cal : CalR) (rec : L0Record)
    (h1 : npClip0 (dark_correction rec.spectrum_counts rec.dark_counts) =
          dark_correction rec.spectrum_counts rec.dark_counts)
    (h2 : npClip0 (prnu_correction (latency_correct (nonlinearity_inverse
            (dark_correction rec.spectrum_counts rec.dark_counts))) cal) =
          prnu_correction (latency_correct (nonlinearity_inverse
            (dark_correction rec.spectrum_counts rec.dark_counts))) cal) :
    cs01_steps_reapplied cal rec = (processRecord cs01 cal rec).spectrum := by
  unfold cs01_steps_reapplied
  rw [cs00_spectrum, h1, cs01_spectrum, cs01_preRate, h2]

/-- C8 amended witness: for the all-zero record both clamps are no-ops and
the two ways of reaching `cs01`'s output coincide. -/
theorem c8_amended_witness :
    cs01_steps_reapplied (calArrays 3) recD =
      (processRecord cs01 (calArrays 3) recD).spectrum := by
  have hdark : dark_correction recD.spectrum_counts recD.dark_counts =
      [0, 0, 0] := rfl
  have hnl : nonlinearity_inverse [(0 : ℝ), 0, 0] = [0, 0, 0] := by
    simp [nonlinearity_inverse]
  have hlat : latency_correct [(0 : ℝ), 0, 0] = [0, 0, 0] := by
    rw [latency_correct_three]
    norm_num
  have hclip : npClip0 [(0 : ℝ), 0, 0] = [0, 0, 0] := by
    simp [npClip0]
  refine c8_amended (calArrays 3) recD ?_ ?_
  · rw [hdark, hclip]
  · rw [hdark, hnl, hlat, prnu_calArrays_three _ (by simp), hclip]

end L0L1
